import Mathlib

/-!
Verification development for the run-orchestration and observability core of
the Price-Is-Right repository: the daily quota gate (`rate_limiter.py`), the
dual-backend opportunity store (`deal_agent_framework.py`), and the
log/result stream multiplexer (`ui/gradio_ui.py`).
-/

namespace PriceIsRight

/-- JSON values as carried by the persistence layer (`json.dumps` /
`json.loads`).  Numbers are kept exact; the spec types monetary fields as
decimals. -/
inductive Json where
  | null
  | bool (b : Bool)
  | str (s : String)
  | num (q : Rat)
  | arr (elems : List Json)
  | obj (fields : List (String × Json))

/-- Modelled from the spec: the `Deal` record of `agents/deals.py` (that file
is not among the sources); fields per the data model in the spec. -/
structure Deal where
  product_description : String
  price : Rat
  url : String
deriving DecidableEq

/-- Modelled from the spec: the `Opportunity` record of `agents/deals.py`
(file not among the sources); a deal with estimate, discount and the optional
`added_at` timestamp. -/
structure Opportunity where
  deal : Deal
  estimate : Rat
  discount : Rat
  added_at : Option String
deriving DecidableEq

/-- Serialization of a `Deal`, as produced by pydantic `model_dump`. -/
def dealToJson (d : Deal) : Json :=
  .obj [("product_description", .str d.product_description),
        ("price", .num d.price),
        ("url", .str d.url)]

/-- Serialization of an `Opportunity`, as produced by pydantic `model_dump`;
a missing timestamp is dumped as JSON null. -/
def opportunityToJson (o : Opportunity) : Json :=
  .obj [("deal", dealToJson o.deal),
        ("estimate", .num o.estimate),
        ("discount", .num o.discount),
        ("added_at", match o.added_at with | some t => .str t | none => .null)]

/-- Serialization of the whole memory, mirroring
`[opportunity.model_dump() for opportunity in self.memory]`. -/
def memoryToJson (mem : List Opportunity) : Json :=
  .arr (mem.map opportunityToJson)

/-- First binding of a key in a JSON object, mirroring Python dict lookup. -/
def lookupField (fields : List (String × Json)) (key : String) : Option Json :=
  match fields with
  | [] => none
  | (k, v) :: rest => if k = key then some v else lookupField rest key

/-- Validation of a `Deal` from JSON, mirroring `Deal(**item)`; `none` models
a pydantic validation error. -/
def dealOfJson : Json → Option Deal
  | .obj fields =>
    match lookupField fields "product_description",
          lookupField fields "price", lookupField fields "url" with
    | some (.str desc), some (.num p), some (.str u) =>
        some { product_description := desc, price := p, url := u }
    | _, _, _ => none
  | _ => none

/-- Validation of the optional `added_at` field: absent or null both give a
missing timestamp. -/
def addedAtOfJson : Option Json → Option (Option String)
  | some (.str t) => some (some t)
  | some .null => some none
  | none => some none
  | _ => none

/-- Validation of an `Opportunity` from JSON, mirroring `Opportunity(**item)`;
`none` models a pydantic validation error. -/
def opportunityOfJson : Json → Option Opportunity
  | .obj fields =>
    match lookupField fields "deal" with
    | some dj =>
      match dealOfJson dj, lookupField fields "estimate",
            lookupField fields "discount",
            addedAtOfJson (lookupField fields "added_at") with
      | some d, some (.num e), some (.num disc), some ts =>
          some { deal := d, estimate := e, discount := disc, added_at := ts }
      | _, _, _, _ => none
    | none => none
  | _ => none

/-- Validation of a list of opportunities, mirroring the list comprehension
`[Opportunity(**item) for item in data]`: the first bad item aborts. -/
def decodeOppList : List Json → Option (List Opportunity)
  | [] => some []
  | j :: rest =>
    match opportunityOfJson j, decodeOppList rest with
    | some o, some os => some (o :: os)
    | _, _ => none

/-- Validation of a persisted memory snapshot: a JSON array of opportunity
objects. -/
def memoryOfJson : Json → Option (List Opportunity)
  | .arr elems => decodeOppList elems
  | _ => none

theorem dealOfJson_roundtrip (d : Deal) : dealOfJson (dealToJson d) = some d := rfl

theorem opportunityOfJson_roundtrip (o : Opportunity) :
    opportunityOfJson (opportunityToJson o) = some o := by
  cases o with
  | mk d e disc ts => cases ts <;> rfl

theorem decodeOppList_roundtrip (mem : List Opportunity) :
    decodeOppList (mem.map opportunityToJson) = some mem := by
  induction mem with
  | nil => rfl
  | cons o rest ih =>
      simp only [List.map, decodeOppList, opportunityOfJson_roundtrip, ih]

theorem memoryOfJson_roundtrip (mem : List Opportunity) :
    memoryOfJson (memoryToJson mem) = some mem := by
  simp only [memoryToJson, memoryOfJson, decodeOppList_roundtrip]

/-!  Rate limiter (`rate_limiter.py`, class `RateLimiter`).  The per-date blob
store is a map from blob names to blob contents; clock and backend outcomes
are explicit parameters.  -/

/-- Content of one quota blob: missing, unreadable (download or JSON parse
failure, which `_read_run_count` catches and treats as 0), or the record
written by `_write_run_count` with its three fields. -/
inductive QuotaBlob where
  | absent
  | corrupt
  | record (date : String) (runCount : Int) (lastUpdated : String)
deriving DecidableEq

/-- Remote blob store of the rate limiter, keyed by blob name. -/
def QuotaStore : Type := String → QuotaBlob

/-- Pointwise update of a quota store. -/
def setBlob (s : QuotaStore) (name : String) (v : QuotaBlob) : QuotaStore :=
  fun n => if n = name then v else s n

/-- Configuration and backend health of the rate limiter: the `USE_GCP` flag,
whether `_init_gcp_client` succeeded (else `_get_gcs_blob` returns `None`),
whether uploads succeed, and the `MAX_DAILY_RUNS` limit. -/
structure RateLimiterConfig where
  USE_GCP : Bool
  clientOk : Bool
  uploadOk : Bool
  MAX_DAILY_RUNS : Int
deriving DecidableEq

/-- Computes `RateLimiter._get_blob_name`: the blob name for a date. -/
def get_blob_name (date : String) : String :=
  "workflow_run_" ++ date ++ ".json"

/-- Computes `RateLimiter._read_run_count`: 0 when GCP is not configured, the
client is broken, or the blob is missing or unreadable; otherwise the stored
`run_count`. -/
def read_run_count (cfg : RateLimiterConfig) (store : QuotaStore)
    (today : String) : Int :=
  if !cfg.USE_GCP then 0
  else if !cfg.clientOk then 0
  else
    match store (get_blob_name today) with
    | .absent => 0
    | .corrupt => 0
    | .record _ c _ => c

/-- Computes `RateLimiter._write_run_count`: reports success without writing
when GCP is off; fails when the blob is unobtainable or the upload fails;
otherwise stores the record for today and succeeds. -/
def write_run_count (cfg : RateLimiterConfig) (store : QuotaStore)
    (today now : String) (count : Int) : Bool × QuotaStore :=
  if !cfg.USE_GCP then (true, store)
  else if !cfg.clientOk then (false, store)
  else if cfg.uploadOk then
    (true, setBlob store (get_blob_name today) (.record today count now))
  else (false, store)

/-- Computes `RateLimiter.increment_run_count`: non-atomic read-modify-write
of today's counter. -/
def increment_run_count (cfg : RateLimiterConfig) (store : QuotaStore)
    (today now : String) : Bool × QuotaStore :=
  let c := read_run_count cfg store today
  write_run_count cfg store today now (c + 1)

/-- Computes `RateLimiter.can_run`: returns `(allowed, remaining)`. -/
def can_run (cfg : RateLimiterConfig) (store : QuotaStore)
    (today : String) : Bool × Int :=
  let c := read_run_count cfg store today
  (decide (c < cfg.MAX_DAILY_RUNS), max 0 (cfg.MAX_DAILY_RUNS - c))

/-- Iterated `increment_run_count` within one calendar day. -/
def iterate_increments (cfg : RateLimiterConfig) (today now : String) :
    Nat → QuotaStore → QuotaStore
  | 0, s => s
  | k + 1, s =>
      (increment_run_count cfg (iterate_increments cfg today now k s)
        today now).2

/-- Fully operational remote backend with limit `L`. -/
def operationalConfig (L : Int) : RateLimiterConfig :=
  { USE_GCP := true, clientOk := true, uploadOk := true, MAX_DAILY_RUNS := L }

theorem get_blob_name_injective {d1 d2 : String}
    (h : get_blob_name d1 = get_blob_name d2) : d1 = d2 := by
  unfold get_blob_name at h
  have hdata : ("workflow_run_".data ++ d1.data) ++ ".json".data
      = ("workflow_run_".data ++ d2.data) ++ ".json".data := by
    have := congrArg String.data h
    simpa [String.data_append, List.append_assoc] using this
  have h1 : "workflow_run_".data ++ d1.data
      = "workflow_run_".data ++ d2.data := List.append_cancel_right hdata
  have h2 : d1.data = d2.data := List.append_cancel_left h1
  cases d1; cases d2; exact congrArg String.mk h2

theorem read_after_iterate (L : Int) (K : Nat) (store : QuotaStore)
    (today now : String) (hfresh : store (get_blob_name today) = .absent) :
    read_run_count (operationalConfig L)
      (iterate_increments (operationalConfig L) today now K store) today
      = (K : Int) := by
  induction K with
  | zero => simp [iterate_increments, read_run_count, operationalConfig, hfresh]
  | succ k ih =>
      have hstep : iterate_increments (operationalConfig L) today now (k + 1) store
          = setBlob (iterate_increments (operationalConfig L) today now k store)
              (get_blob_name today)
              (.record today (read_run_count (operationalConfig L)
                  (iterate_increments (operationalConfig L) today now k store)
                  today + 1) now) := by
        simp [iterate_increments, increment_run_count, write_run_count,
          operationalConfig]
      rw [hstep, ih]
      simp [read_run_count, setBlob, operationalConfig, Nat.cast_succ]

/-!  Opportunity store (`deal_agent_framework.py`, class `DealAgentFramework`):
`read_memory`, `write_memory`, `reset_memory` and the append path of `run`.
Raised Python exceptions are modelled as `Except.error` / `some` error values. -/

/-- State of one persisted backing resource: missing, unreadable or
unparsable, or a JSON document. -/
inductive Resource where
  | absent
  | corrupt
  | json (j : Json)

/-- Configuration and backend health of the framework store: the `USE_GCP`
flag, whether `_init_gcp_client` succeeded (else `_get_gcs_blob` returns
`None`), whether remote uploads succeed, and whether the local file write
succeeds. -/
structure FrameworkConfig where
  USE_GCP : Bool
  clientOk : Bool
  uploadOk : Bool
  localWriteOk : Bool

/-- State of a `DealAgentFramework`: the in-memory sequence, the local
`memory.json` file and the remote `memory.json` blob. -/
structure FrameworkState where
  memory : List Opportunity
  localFile : Resource
  remoteBlob : Resource

/-- Backing resource selected by the configuration. -/
def persistedResource (cfg : FrameworkConfig) (s : FrameworkState) : Resource :=
  if cfg.USE_GCP then s.remoteBlob else s.localFile

/-- Whether a snapshot write will succeed under the configured backend. -/
def writesOk (cfg : FrameworkConfig) : Bool :=
  if cfg.USE_GCP then cfg.clientOk && cfg.uploadOk else cfg.localWriteOk

/-- Computes `DealAgentFramework.read_memory`.  Remote branch: every failure
(broken client, missing blob, download or parse or validation failure) is
caught and yields the empty list.  Local branch: a missing file yields the
empty list, but `json.load` and `Opportunity(**item)` run outside any
try/except, so their failures propagate as exceptions. -/
def read_memory (cfg : FrameworkConfig) (s : FrameworkState) :
    Except String (List Opportunity) :=
  if cfg.USE_GCP then
    if !cfg.clientOk then .ok []
    else
      match s.remoteBlob with
      | .absent => .ok []
      | .corrupt => .ok []
      | .json j =>
        match memoryOfJson j with
        | some mem => .ok mem
        | none => .ok []
  else
    match s.localFile with
    | .absent => .ok []
    | .corrupt => .error "json.JSONDecodeError"
    | .json j =>
      match memoryOfJson j with
      | some mem => .ok mem
      | none => .error "ValidationError"

/-- Computes `DealAgentFramework.write_memory`: full-snapshot overwrite of the
configured backend.  Remote branch: a broken client is silently skipped and an
upload failure is caught and logged, so it never raises.  Local branch: a
failing `open`/`json.dump` raises out of the method. -/
def write_memory (cfg : FrameworkConfig) (s : FrameworkState) :
    Except String FrameworkState :=
  if cfg.USE_GCP then
    if !cfg.clientOk then .ok s
    else if cfg.uploadOk then
      .ok { s with remoteBlob := .json (memoryToJson s.memory) }
    else .ok s
  else
    if cfg.localWriteOk then
      .ok { s with localFile := .json (memoryToJson s.memory) }
    else .error "OSError"

/-- Computes the append path of `DealAgentFramework.run` (the planner's
result is the parameter `o`): `self.memory.append(result)` then
`self.write_memory()`.  The second component is the exception propagated to
the caller, if any; the in-memory append always survives. -/
def run_append (cfg : FrameworkConfig) (s : FrameworkState) (o : Opportunity) :
    FrameworkState × Option String :=
  let s1 : FrameworkState := { s with memory := s.memory ++ [o] }
  match write_memory cfg s1 with
  | .ok s2 => (s2, none)
  | .error e => (s1, some e)

/-- Computes `DealAgentFramework.reset_memory`: dumps the first two entries,
revalidates them, installs them as the new memory and persists. -/
def reset_memory (cfg : FrameworkConfig) (s : FrameworkState) :
    FrameworkState × Option String :=
  match decodeOppList ((s.memory.take 2).map opportunityToJson) with
  | some mem2 =>
    let s1 : FrameworkState := { s with memory := mem2 }
    match write_memory cfg s1 with
    | .ok s2 => (s2, none)
    | .error e => (s1, some e)
  | none => (s, some "ValidationError")

/-- Iterated appends, each through the `run` append path. -/
def append_all (cfg : FrameworkConfig) : List Opportunity → FrameworkState →
    FrameworkState
  | [], s => s
  | o :: rest, s => append_all cfg rest (run_append cfg s o).1

/-- Fresh store: nothing in memory, nothing persisted on either backend. -/
def emptyState : FrameworkState :=
  { memory := [], localFile := .absent, remoteBlob := .absent }

theorem write_memory_ok (cfg : FrameworkConfig) (s : FrameworkState)
    (hw : writesOk cfg = true) :
    ∃ s', write_memory cfg s = .ok s' ∧ s'.memory = s.memory ∧
      persistedResource cfg s' = .json (memoryToJson s.memory) ∧
      read_memory cfg s' = .ok s.memory := by
  cases cfg with
  | mk gcp cl up lw =>
      cases gcp <;> cases cl <;> cases up <;> cases lw <;>
        simp_all [writesOk, write_memory, persistedResource, read_memory,
          memoryOfJson_roundtrip]

theorem run_append_ok (cfg : FrameworkConfig) (s : FrameworkState)
    (o : Opportunity) (hw : writesOk cfg = true) :
    (run_append cfg s o).1.memory = s.memory ++ [o] ∧
    (run_append cfg s o).2 = none ∧
    persistedResource cfg (run_append cfg s o).1
      = .json (memoryToJson (s.memory ++ [o])) ∧
    read_memory cfg (run_append cfg s o).1 = .ok (s.memory ++ [o]) := by
  obtain ⟨s', hweq, hmem, hres, hread⟩ :=
    write_memory_ok cfg { s with memory := s.memory ++ [o] } hw
  simp only [run_append, hweq]
  exact ⟨hmem, trivial, hres, hread⟩

theorem append_all_ok (cfg : FrameworkConfig) (hw : writesOk cfg = true) :
    ∀ (os : List Opportunity) (s : FrameworkState),
      read_memory cfg s = .ok s.memory →
      (append_all cfg os s).memory = s.memory ++ os ∧
      read_memory cfg (append_all cfg os s) = .ok (s.memory ++ os) := by
  intro os
  induction os with
  | nil => intro s hs; simpa [append_all] using hs
  | cons o rest ih =>
      intro s hs
      obtain ⟨hmem, -, -, hread⟩ := run_append_ok cfg s o hw
      obtain ⟨ihmem, ihread⟩ := ih (run_append cfg s o).1 (by rw [hread, hmem])
      constructor
      · rw [append_all, ihmem, hmem, List.append_assoc]
        rfl
      · rw [append_all, ihread, hmem, List.append_assoc]
        rfl

theorem read_memory_emptyState (cfg : FrameworkConfig) :
    read_memory cfg emptyState = .ok [] := by
  cases cfg with
  | mk gcp cl up lw => cases gcp <;> cases cl <;> simp [read_memory, emptyState]

/-!  Stream multiplexer (`ui/gradio_ui.py`): the generator
`GradioUI._update_output` merging the log queue and the result queue, the
log-line recolouring `reformat` of `log_utils.py`, and the worker body of
`GradioUI._run_with_logging`.  Queues are lists consumed from the head
(FIFO); the table already produced by `_table_for` is opaque row data. -/

/-- Replacement table of `log_utils.mapper`, in insertion order: ANSI colour
prefixes and the HTML span each is rewritten to. -/
def colorMapper : List (String × String) :=
  [("\x1b[40m\x1b[31m", "<span style=\"color: #ff6b6b\">"),
   ("\x1b[40m\x1b[32m", "<span style=\"color: #4ade80\">"),
   ("\x1b[40m\x1b[33m", "<span style=\"color: #ffd700\">"),
   ("\x1b[40m\x1b[34m", "<span style=\"color: #5dade2\">"),
   ("\x1b[40m\x1b[35m", "<span style=\"color: #da70d6\">"),
   ("\x1b[40m\x1b[36m", "<span style=\"color: #22d3ee\">"),
   ("\x1b[40m\x1b[37m", "<span style=\"color: #f0f0f0\">"),
   ("\x1b[44m\x1b[37m", "<span style=\"color: #ff9f43\">")]

/-- Computes `log_utils.reformat`: rewrites ANSI colour codes to HTML spans
and the reset code to a closing span. -/
def reformat (message : String) : String :=
  (colorMapper.foldl (fun m kv => m.replace kv.1 kv.2) message).replace
    "\x1b[0m" "</span>"

/-- Rows of the deals dataframe, as produced by `_table_for`. -/
abbrev Table : Type := List (List String)

/-- One tuple yielded by the `_update_output` generator: the accumulated log
lines, the dataframe value, the button interactivity, and the status
message (the HTML log pane is a pure function of the log lines and is not
repeated here). -/
structure MuxYield where
  log_data : List String
  table : Table
  interactive : Bool
  status : String

/-- Loop state of `_update_output`: accumulated log lines, the two queues,
and the `final_result` local. -/
structure MuxState where
  log_data : List String
  logQueue : List String
  resultQueue : List Table
  final_result : Option Table

/-- Python truthiness of `final_result or initial_result`: `None` and the
empty table both fall back to the initial table. -/
def truthyOr (final : Option Table) (initial : Table) : Table :=
  match final with
  | some t => if t.isEmpty then initial else t
  | none => initial

/-- One loop iteration of `_update_output`. -/
inductive MuxStep where
  | yielded (out : MuxYield) (next : MuxState)
  | slept (next : MuxState)
  | finished

/-- Computes one iteration of the `while True` loop of
`GradioUI._update_output`: a pending log message is consumed and yielded
first; otherwise a pending result is recorded and yielded with the status
message; otherwise the loop breaks if a result was seen and sleeps if not. -/
def update_output_step (initial : Table) (status : String) (s : MuxState) :
    MuxStep :=
  match s.logQueue with
  | m :: rest =>
    let ld := s.log_data ++ [reformat m]
    .yielded { log_data := ld, table := truthyOr s.final_result initial,
               interactive := false, status := "" }
      { log_data := ld, logQueue := rest, resultQueue := s.resultQueue,
        final_result := s.final_result }
  | [] =>
    match s.resultQueue with
    | r :: rest =>
      .yielded { log_data := s.log_data, table := r, interactive := true,
                 status := status }
        { log_data := s.log_data, logQueue := [], resultQueue := rest,
          final_result := some r }
    | [] =>
      match s.final_result with
      | some _ => .finished
      | none => .slept s

/-- Runs the `_update_output` loop for at most `fuel` iterations, collecting
the yielded tuples; the boolean reports whether the loop reached its `break`
(the generator terminated) within the fuel. -/
def update_output (initial : Table) (status : String) :
    Nat → MuxState → List MuxYield × Bool
  | 0, _ => ([], false)
  | fuel + 1, s =>
    match update_output_step initial status s with
    | .finished => ([], true)
    | .yielded out s' =>
        let rest := update_output initial status fuel s'
        (out :: rest.1, rest.2)
    | .slept s' => update_output initial status fuel s'

/-- Expected yields while the log queue drains: one yield per queued message,
with the log buffer growing in FIFO order. -/
def log_yields (initial : Table) (final : Option Table) :
    List String → List String → List MuxYield
  | _, [] => []
  | ld, m :: rest =>
    let ld' := ld ++ [reformat m]
    { log_data := ld', table := truthyOr final initial,
      interactive := false, status := "" } ::
      log_yields initial final ld' rest

/-- Computes the worker body of `GradioUI._run_with_logging`: on a successful
run the result is enqueued after the quota increment; an exception from
`_do_run` kills the thread before either happens.  The boolean records
whether `increment_run_count` was reached. -/
def worker_run (planOutcome : Except String Table)
    (resultQueue : List Table) : List Table × Bool :=
  match planOutcome with
  | .ok t => (resultQueue ++ [t], true)
  | .error _ => (resultQueue, false)

theorem update_output_drains (initial : Table) (status : String) (r : Table) :
    ∀ (es : List String) (ld : List String) (n : Nat),
      update_output initial status (es.length + 2 + n)
        { log_data := ld, logQueue := es, resultQueue := [r],
          final_result := none }
      = (log_yields initial none ld es ++
          [{ log_data := ld ++ es.map reformat, table := r,
             interactive := true, status := status }], true) := by
  intro es
  induction es with
  | nil =>
      intro ld n
      show update_output initial status (0 + 2 + n) _ = _
      have h2 : 0 + 2 + n = (1 + n) + 1 := by omega
      have h1 : 1 + n = n + 1 := by omega
      rw [h2, update_output]
      simp only [update_output_step]
      rw [h1, update_output]
      simp [update_output_step, log_yields]
  | cons m rest ih =>
      intro ld n
      have hlen : (m :: rest).length + 2 + n = (rest.length + 2 + n) + 1 := by
        simp [List.length_cons]; omega
      rw [hlen, update_output]
      simp only [update_output_step]
      rw [ih (ld ++ [reformat m]) n]
      simp [log_yields, List.append_assoc]

theorem update_output_starved (initial : Table) (status : String) :
    ∀ (n : Nat) (es ld : List String),
      (update_output initial status n
        { log_data := ld, logQueue := es, resultQueue := [],
          final_result := none }).2 = false := by
  intro n
  induction n with
  | zero => intro es ld; rfl
  | succ k ih =>
      intro es ld
      cases es with
      | nil =>
          rw [update_output]
          simp only [update_output_step]
          exact ih [] ld
      | cons m rest =>
          rw [update_output]
          simp only [update_output_step]
          exact ih rest (ld ++ [reformat m])

/-!  Claim theorems.  -/

/-- Rate limiter with `USE_GCP` disabled (the local / non-remote mode) and
the default limit of 20. -/
def noGcpConfig : RateLimiterConfig :=
  { USE_GCP := false, clientOk := false, uploadOk := false,
    MAX_DAILY_RUNS := 20 }

/-- Rate limiter with `USE_GCP` disabled and a configured limit of 0. -/
def noGcpZeroConfig : RateLimiterConfig :=
  { USE_GCP := false, clientOk := false, uploadOk := false,
    MAX_DAILY_RUNS := 0 }

/-- Quota store holding no blob at all. -/
def freshQuotaStore : QuotaStore := fun _ => .absent

theorem iterate_increments_no_gcp (cfg : RateLimiterConfig)
    (hgcp : cfg.USE_GCP = false) (today now : String) :
    ∀ (K : Nat) (store : QuotaStore),
      iterate_increments cfg today now K store = store := by
  intro K
  induction K with
  | zero => intro store; rfl
  | succ k ih =>
      intro store
      simp [iterate_increments, ih, increment_run_count, write_run_count, hgcp]

/-- Claim C1: with an operational backend and a fresh counter for the day,
after exactly K `increment_run_count` calls within one calendar day with
limit L, `can_run` returns `allowed = (K < L)` and
`remaining = max 0 (L - K)`. -/
theorem quota_counts_runs (L : Int) (hL : 0 ≤ L) (K : Nat)
    (store : QuotaStore) (today now : String)
    (hfresh : store (get_blob_name today) = .absent) :
    can_run (operationalConfig L)
      (iterate_increments (operationalConfig L) today now K store) today
      = (decide ((K : Int) < L), max 0 (L - (K : Int))) := by
  have hr := read_after_iterate L K store today now hfresh
  simp only [can_run]
  rw [hr]
  simp [operationalConfig]

/-- Witness for C1: limit 3, five increments, quota exhausted. -/
theorem quota_counts_runs_witness :
    (0 : Int) ≤ 3 ∧
    freshQuotaStore (get_blob_name "2026-10-12") = .absent ∧
    can_run (operationalConfig 3)
      (iterate_increments (operationalConfig 3) "2026-10-12" "now" 5
        freshQuotaStore) "2026-10-12"
      = (decide (((5 : Nat) : Int) < 3), max 0 (3 - ((5 : Nat) : Int))) :=
  ⟨by norm_num, rfl,
   quota_counts_runs 3 (by norm_num) 5 freshQuotaStore "2026-10-12" "now" rfl⟩

/-- Claim C6: for distinct dates, the record stored for one date is neither
consulted by `can_run` nor mutated by `increment_run_count` on the other
date, and a date with no record reads a fresh counter of 0. -/
theorem quota_date_isolation (cfg : RateLimiterConfig) (store : QuotaStore)
    (d1 d2 : String) (v : QuotaBlob) (now : String) (h : d1 ≠ d2) :
    can_run cfg (setBlob store (get_blob_name d1) v) d2
      = can_run cfg store d2 ∧
    (increment_run_count cfg store d2 now).2 (get_blob_name d1)
      = store (get_blob_name d1) ∧
    (store (get_blob_name d2) = .absent → read_run_count cfg store d2 = 0) := by
  have hne : get_blob_name d2 ≠ get_blob_name d1 :=
    fun hc => h (get_blob_name_injective hc).symm
  have hne' : get_blob_name d1 ≠ get_blob_name d2 :=
    fun hc => h (get_blob_name_injective hc)
  refine ⟨?_, ?_, ?_⟩
  · simp [can_run, read_run_count, setBlob, hne]
  · cases cfg with
    | mk gcp cl up mx =>
        cases gcp <;> cases cl <;> cases up <;>
          simp [increment_run_count, write_run_count, read_run_count,
            setBlob, hne']
  · intro hfresh
    cases cfg with
    | mk gcp cl up mx =>
        cases gcp <;> cases cl <;> simp [read_run_count, hfresh]

/-- Witness for C6: a count of 7 recorded on 2026-10-11 is invisible on
2026-10-12, whose counter reads 0. -/
theorem quota_date_isolation_witness :
    ("2026-10-11" : String) ≠ "2026-10-12" ∧
    can_run (operationalConfig 20)
      (setBlob freshQuotaStore (get_blob_name "2026-10-11")
        (.record "2026-10-11" 7 "now")) "2026-10-12"
      = can_run (operationalConfig 20) freshQuotaStore "2026-10-12" ∧
    (increment_run_count (operationalConfig 20) freshQuotaStore
        "2026-10-12" "now").2 (get_blob_name "2026-10-11")
      = freshQuotaStore (get_blob_name "2026-10-11") ∧
    read_run_count (operationalConfig 20) freshQuotaStore "2026-10-12" = 0 :=
  have h := quota_date_isolation (operationalConfig 20) freshQuotaStore
    "2026-10-11" "2026-10-12" (.record "2026-10-11" 7 "now") "now"
    (by decide)
  ⟨by decide, h.1, h.2.1, h.2.2 rfl⟩

/-- Counterexample to C9: in the non-remote mode there is no local file
backend at all — `increment_run_count` reports success, yet no record for the
date exists anywhere afterwards and the counter still reads 0. -/
theorem quota_local_counterexample :
    (increment_run_count noGcpConfig freshQuotaStore "2026-10-12" "now").1
      = true ∧
    (increment_run_count noGcpConfig freshQuotaStore "2026-10-12" "now").2
        (get_blob_name "2026-10-12") = .absent ∧
    (increment_run_count noGcpConfig freshQuotaStore "2026-10-12" "now").2
        (get_blob_name "2026-10-12") ≠ .record "2026-10-12" 1 "now" ∧
    read_run_count noGcpConfig
      (increment_run_count noGcpConfig freshQuotaStore "2026-10-12" "now").2
      "2026-10-12" = 0 := by
  refine ⟨rfl, rfl, ?_, rfl⟩
  intro hc
  exact QuotaBlob.noConfusion hc

/-- Claim C9 as amended: the per-date name pattern
`workflow_run_<date>.json` belongs to the remote blob backend only; an
operational remote increment records the updated count under that name,
while in the non-remote mode `increment_run_count` persists nothing and
still reports success. -/
theorem quota_backend_amended (cfg : RateLimiterConfig) (store : QuotaStore)
    (today now : String) :
    get_blob_name today = "workflow_run_" ++ today ++ ".json" ∧
    (cfg.USE_GCP = true → cfg.clientOk = true → cfg.uploadOk = true →
      (increment_run_count cfg store today now).2 (get_blob_name today)
        = .record today (read_run_count cfg store today + 1) now) ∧
    (cfg.USE_GCP = false →
      (increment_run_count cfg store today now).1 = true ∧
      (increment_run_count cfg store today now).2 = store) := by
  refine ⟨rfl, ?_, ?_⟩
  · intro h1 h2 h3
    simp [increment_run_count, write_run_count, setBlob, h1, h2, h3]
  · intro h1
    simp [increment_run_count, write_run_count, h1]

/-- Witness for the amended C9: one operational remote increment stores
`run_count = 1` under today's blob name; one non-remote increment claims
success and leaves the store untouched. -/
theorem quota_backend_amended_witness :
    (increment_run_count (operationalConfig 20) freshQuotaStore
        "2026-10-12" "now").2 (get_blob_name "2026-10-12")
      = .record "2026-10-12"
          (read_run_count (operationalConfig 20) freshQuotaStore
            "2026-10-12" + 1) "now" ∧
    (increment_run_count noGcpConfig freshQuotaStore "2026-10-12" "now").1
      = true ∧
    (increment_run_count noGcpConfig freshQuotaStore "2026-10-12" "now").2
      = freshQuotaStore :=
  ⟨(quota_backend_amended (operationalConfig 20) freshQuotaStore
      "2026-10-12" "now").2.1 rfl rfl rfl,
   (quota_backend_amended noGcpConfig freshQuotaStore
      "2026-10-12" "now").2.2 rfl⟩

/-- Counterexample to C10: with the remote backend off and a configured
limit of 0, `can_run` returns `(false, 0)` after an increment, not
`(true, limit)` — the clause `CanRun() still returns (true, limit)` fails
for a non-positive limit. -/
theorem quota_failopen_counterexample :
    can_run noGcpZeroConfig
      (iterate_increments noGcpZeroConfig "2026-10-12" "now" 1
        freshQuotaStore) "2026-10-12" = (false, 0) ∧
    can_run noGcpZeroConfig
        (iterate_increments noGcpZeroConfig "2026-10-12" "now" 1
          freshQuotaStore) "2026-10-12"
      ≠ (true, noGcpZeroConfig.MAX_DAILY_RUNS) := by
  refine ⟨rfl, ?_⟩
  decide

/-- Claim C10 as amended: with the remote quota backend unconfigured,
every increment reports success without persisting, the observed count
stays 0 after any number K of increments, and `can_run` always returns
`(0 < limit, max 0 limit)` — that is `(true, limit)` whenever the limit is
at least 1 — so the daily limit never becomes more restrictive with use. -/
theorem quota_failopen_amended (cfg : RateLimiterConfig)
    (hgcp : cfg.USE_GCP = false) (K : Nat) (store : QuotaStore)
    (today now : String) :
    iterate_increments cfg today now K store = store ∧
    (increment_run_count cfg store today now).1 = true ∧
    read_run_count cfg store today = 0 ∧
    can_run cfg store today
      = (decide (0 < cfg.MAX_DAILY_RUNS), max 0 cfg.MAX_DAILY_RUNS) ∧
    (1 ≤ cfg.MAX_DAILY_RUNS →
      can_run cfg store today = (true, cfg.MAX_DAILY_RUNS)) := by
  have hread : read_run_count cfg store today = 0 := by
    simp [read_run_count, hgcp]
  refine ⟨iterate_increments_no_gcp cfg hgcp today now K store, ?_, hread,
    ?_, ?_⟩
  · simp [increment_run_count, write_run_count, hgcp]
  · simp [can_run, hread]
  · intro hL
    have h1 : decide ((0 : Int) < cfg.MAX_DAILY_RUNS) = true :=
      decide_eq_true (by omega)
    have h2 : max 0 cfg.MAX_DAILY_RUNS = cfg.MAX_DAILY_RUNS :=
      max_eq_right (by omega)
    simp [can_run, hread, h1, h2]

/-- Witness for the amended C10: default limit 20, two increments, quota
still fully available. -/
theorem quota_failopen_amended_witness :
    noGcpConfig.USE_GCP = false ∧
    iterate_increments noGcpConfig "2026-10-12" "now" 2 freshQuotaStore
      = freshQuotaStore ∧
    (increment_run_count noGcpConfig freshQuotaStore "2026-10-12" "now").1
      = true ∧
    read_run_count noGcpConfig freshQuotaStore "2026-10-12" = 0 ∧
    can_run noGcpConfig freshQuotaStore "2026-10-12" = (true, 20) :=
  have h := quota_failopen_amended noGcpConfig rfl 2 freshQuotaStore
    "2026-10-12" "now"
  ⟨rfl, h.1, h.2.1, h.2.2.1, h.2.2.2.2 (by decide)⟩

/-- Framework on the local file backend, with working local writes. -/
def localConfig : FrameworkConfig :=
  { USE_GCP := false, clientOk := false, uploadOk := false,
    localWriteOk := true }

/-- Framework on the local file backend whose file writes fail. -/
def localBadWriteConfig : FrameworkConfig :=
  { USE_GCP := false, clientOk := false, uploadOk := false,
    localWriteOk := false }

/-- Framework on the operational remote backend. -/
def gcpConfig : FrameworkConfig :=
  { USE_GCP := true, clientOk := true, uploadOk := true,
    localWriteOk := true }

/-- Store state whose local memory file holds unparsable text. -/
def corruptLocalState : FrameworkState :=
  { memory := [], localFile := .corrupt, remoteBlob := .absent }

/-- Store state whose remote memory blob holds unparsable text. -/
def corruptRemoteState : FrameworkState :=
  { memory := [], localFile := .absent, remoteBlob := .corrupt }

/-- The opportunity of the spec's first end-to-end scenario. -/
def o0 : Opportunity :=
  { deal := { product_description := "Widget", price := 10,
              url := "https://example.com/widget" },
    estimate := 25, discount := 15, added_at := none }

/-- A second sample opportunity, with a timestamp. -/
def o1 : Opportunity :=
  { deal := { product_description := "Gadget", price := 50,
              url := "https://example.com/gadget" },
    estimate := 90, discount := 40, added_at := some "2026-10-12T10:00:00" }

/-- A third sample opportunity. -/
def o2 : Opportunity :=
  { deal := { product_description := "Gizmo", price := 5,
              url := "https://example.com/gizmo" },
    estimate := 9, discount := 4, added_at := some "2026-10-12T11:00:00" }

/-- Counterexample to C2: on the local backend a malformed memory file makes
`read_memory` raise `json.JSONDecodeError` to the caller instead of
returning the empty sequence. -/
theorem read_memory_malformed_counterexample :
    read_memory localConfig corruptLocalState
      = .error "json.JSONDecodeError" ∧
    read_memory localConfig corruptLocalState ≠ .ok [] := by
  refine ⟨rfl, ?_⟩
  intro hc
  exact Except.noConfusion hc

/-- Claim C2 as amended: a missing backing resource loads as the empty
sequence on both backends; a malformed payload is swallowed (logged, empty
result) only on the remote backend — on the local backend it raises to the
caller. -/
theorem read_memory_error_handling (cfg : FrameworkConfig)
    (s : FrameworkState) :
    (persistedResource cfg s = .absent → read_memory cfg s = .ok []) ∧
    (cfg.USE_GCP = true → ∃ mem, read_memory cfg s = .ok mem) ∧
    (cfg.USE_GCP = true → s.remoteBlob = .corrupt →
      read_memory cfg s = .ok []) ∧
    (cfg.USE_GCP = false → s.localFile = .corrupt →
      read_memory cfg s = .error "json.JSONDecodeError") := by
  cases cfg with
  | mk gcp cl up lw =>
    cases s with
    | mk mem lf rb =>
      refine ⟨?_, ?_, ?_, ?_⟩
      · intro h
        cases gcp <;> cases cl <;> simp_all [read_memory, persistedResource]
      · cases gcp with
        | false => intro h; exact absurd h (by simp)
        | true =>
            intro _
            cases cl with
            | false => exact ⟨[], by simp [read_memory]⟩
            | true =>
                cases rb with
                | absent => exact ⟨[], by simp [read_memory]⟩
                | corrupt => exact ⟨[], by simp [read_memory]⟩
                | json j =>
                    cases hm : memoryOfJson j with
                    | some m => exact ⟨m, by simp [read_memory, hm]⟩
                    | none => exact ⟨[], by simp [read_memory, hm]⟩
      · intro hgcp hcorr
        cases gcp <;> cases cl <;> simp_all [read_memory]
      · intro hgcp hcorr
        cases gcp <;> simp_all [read_memory]

/-- Witness for the amended C2: a missing local file loads as empty, a
corrupt remote blob loads as empty, a corrupt local file raises. -/
theorem read_memory_error_handling_witness :
    read_memory localConfig emptyState = .ok [] ∧
    read_memory gcpConfig corruptRemoteState = .ok [] ∧
    read_memory localConfig corruptLocalState
      = .error "json.JSONDecodeError" :=
  ⟨(read_memory_error_handling localConfig emptyState).1 rfl,
   (read_memory_error_handling gcpConfig corruptRemoteState).2.2.1 rfl rfl,
   (read_memory_error_handling localConfig corruptLocalState).2.2.2 rfl rfl⟩

/-- Counterexample to C3: on the local backend with a failing file write, the
append is kept in memory but the write failure raises to the caller instead
of being logged only. -/
theorem append_failure_counterexample :
    (run_append localBadWriteConfig emptyState o0).2 = some "OSError" ∧
    (run_append localBadWriteConfig emptyState o0).2 ≠ none ∧
    (run_append localBadWriteConfig emptyState o0).1.memory = [o0] := by
  refine ⟨rfl, ?_, rfl⟩
  intro hc
  exact Option.noConfusion hc

/-- Claim C3 as amended: `run` appends the opportunity and then persists
the entire sequence; the in-memory append always survives, a remote
persistence failure is only logged (no exception), but a local write failure
raises to the caller. -/
theorem run_append_spec (cfg : FrameworkConfig) (s : FrameworkState)
    (o : Opportunity) :
    (run_append cfg s o).1.memory = s.memory ++ [o] ∧
    (writesOk cfg = true →
      (run_append cfg s o).2 = none ∧
      persistedResource cfg (run_append cfg s o).1
        = .json (memoryToJson (s.memory ++ [o]))) ∧
    (cfg.USE_GCP = true → (run_append cfg s o).2 = none) ∧
    (cfg.USE_GCP = false → cfg.localWriteOk = false →
      (run_append cfg s o).2 = some "OSError") := by
  refine ⟨?_, ?_, ?_, ?_⟩
  · cases cfg with
    | mk gcp cl up lw =>
        cases gcp <;> cases cl <;> cases up <;> cases lw <;>
          simp [run_append, write_memory]
  · intro hw
    obtain ⟨-, h2, h3, -⟩ := run_append_ok cfg s o hw
    exact ⟨h2, h3⟩
  · intro hgcp
    cases cfg with
    | mk gcp cl up lw =>
        cases cl <;> cases up <;> simp_all [run_append, write_memory]
  · intro hgcp hlw
    simp [run_append, write_memory, hgcp, hlw]

/-- Witness for the amended C3: a successful local append persists the
snapshot; a failing local write raises while the append is kept. -/
theorem run_append_spec_witness :
    (run_append localConfig emptyState o0).1.memory
      = emptyState.memory ++ [o0] ∧
    ((run_append localConfig emptyState o0).2 = none ∧
      persistedResource localConfig (run_append localConfig emptyState o0).1
        = .json (memoryToJson (emptyState.memory ++ [o0]))) ∧
    (run_append localBadWriteConfig emptyState o0).2 = some "OSError" :=
  ⟨(run_append_spec localConfig emptyState o0).1,
   (run_append_spec localConfig emptyState o0).2.1 rfl,
   (run_append_spec localBadWriteConfig emptyState o0).2.2.2 rfl rfl⟩

/-- Claim C4: on a store with at least two entries and a working backend,
`reset_memory` leaves the in-memory and the persisted sequence equal to
exactly the first two entries, in their original order, and raises nothing. -/
theorem reset_memory_spec (cfg : FrameworkConfig) (s : FrameworkState)
    (h2 : 2 ≤ s.memory.length) (hw : writesOk cfg = true) :
    (reset_memory cfg s).1.memory = s.memory.take 2 ∧
    (reset_memory cfg s).1.memory.length = 2 ∧
    persistedResource cfg (reset_memory cfg s).1
      = .json (memoryToJson (s.memory.take 2)) ∧
    (reset_memory cfg s).2 = none := by
  have hdec := decodeOppList_roundtrip (s.memory.take 2)
  obtain ⟨s', hweq, hmem, hres, -⟩ :=
    write_memory_ok cfg { s with memory := s.memory.take 2 } hw
  simp only [reset_memory, hdec, hweq]
  refine ⟨hmem, ?_, hres, trivial⟩
  rw [hmem]
  simp only [List.length_take]
  omega

/-- Witness for C4: resetting a three-entry store keeps exactly its first two
entries in order, in memory and on disk. -/
theorem reset_memory_spec_witness :
    2 ≤ ([o0, o1, o2] : List Opportunity).length ∧
    writesOk localConfig = true ∧
    (reset_memory localConfig
        { memory := [o0, o1, o2], localFile := .absent,
          remoteBlob := .absent }).1.memory
      = ([o0, o1, o2] : List Opportunity).take 2 ∧
    persistedResource localConfig
        (reset_memory localConfig
          { memory := [o0, o1, o2], localFile := .absent,
            remoteBlob := .absent }).1
      = .json (memoryToJson (([o0, o1, o2] : List Opportunity).take 2)) ∧
    (reset_memory localConfig
        { memory := [o0, o1, o2], localFile := .absent,
          remoteBlob := .absent }).2 = none :=
  have h := reset_memory_spec localConfig
    { memory := [o0, o1, o2], localFile := .absent, remoteBlob := .absent }
    (by simp) rfl
  ⟨by simp, rfl, h.1, h.2.2.1, h.2.2.2⟩

/-- Claim C5: starting from an empty store, any sequence of appends followed
by a reload round-trips — the reloaded sequence is exactly the appended
opportunities, in append order, with as many entries as appends. -/
theorem append_reload_roundtrip (cfg : FrameworkConfig)
    (hw : writesOk cfg = true) (os : List Opportunity) :
    (append_all cfg os emptyState).memory = os ∧
    read_memory cfg (append_all cfg os emptyState) = .ok os ∧
    (append_all cfg os emptyState).memory.length = os.length := by
  obtain ⟨h1, h2⟩ := append_all_ok cfg hw os emptyState
    (read_memory_emptyState cfg)
  have he : emptyState.memory ++ os = os := by simp [emptyState]
  rw [he] at h1 h2
  exact ⟨h1, h2, by rw [h1]⟩

/-- Witness for C5: two appends on the local backend reload as exactly those
two entries, in order. -/
theorem append_reload_roundtrip_witness :
    writesOk localConfig = true ∧
    (append_all localConfig [o0, o1] emptyState).memory = [o0, o1] ∧
    read_memory localConfig (append_all localConfig [o0, o1] emptyState)
      = .ok [o0, o1] ∧
    (append_all localConfig [o0, o1] emptyState).memory.length
      = ([o0, o1] : List Opportunity).length :=
  have h := append_reload_roundtrip localConfig rfl [o0, o1]
  ⟨rfl, h.1, h.2.1, h.2.2⟩

/-- Claim C7: with log events queued before the result is available, the
`_update_output` loop consumes and yields them in producer (FIFO) order —
each yield growing the log buffer by the next event, none dropped or
reordered — and only afterwards yields a terminal state carrying the result
and breaks, after the log source is drained. -/
theorem stream_fifo_then_result (initial : Table) (status : String)
    (r : Table) (es ld : List String) (fuel : Nat)
    (h : es.length + 2 ≤ fuel) :
    update_output initial status fuel
      { log_data := ld, logQueue := es, resultQueue := [r],
        final_result := none }
      = (log_yields initial none ld es ++
          [{ log_data := ld ++ es.map reformat, table := r,
             interactive := true, status := status }], true) := by
  obtain ⟨n, rfl⟩ : ∃ n, fuel = es.length + 2 + n :=
    ⟨fuel - (es.length + 2), by omega⟩
  exact update_output_drains initial status r es ld n

/-- Witness for C7: three queued log lines `a`, `b`, `c` and one result. -/
theorem stream_fifo_then_result_witness :
    (["a", "b", "c"] : List String).length + 2 ≤ 9 ∧
    update_output [] "done" 9
      { log_data := [], logQueue := ["a", "b", "c"],
        resultQueue := [[["R"]]], final_result := none }
      = (log_yields [] none [] ["a", "b", "c"] ++
          [{ log_data := [] ++ (["a", "b", "c"] : List String).map reformat,
             table := [["R"]], interactive := true, status := "done" }],
         true) :=
  ⟨by decide,
   stream_fifo_then_result [] "done" [["R"]] ["a", "b", "c"] [] 9 (by decide)⟩

/-- Counterexample to C8: a worker whose planner call raises enqueues no
result, and the `_update_output` loop over the resulting empty queues never
terminates — there is no iteration count after which the stream has reached
any terminal state. -/
theorem stream_failure_counterexample :
    (worker_run (.error "PlanningError") []).1 = ([] : List Table) ∧
    ¬ ∃ n : Nat,
        (update_output [] "" n
          { log_data := [], logQueue := [], resultQueue := [],
            final_result := none }).2 = true := by
  refine ⟨rfl, ?_⟩
  rintro ⟨n, hn⟩
  rw [update_output_starved [] "" n [] []] at hn
  exact Bool.noConfusion hn

/-- Claim C8 as amended: a worker-side planner failure kills the worker
before the quota increment and before any result is enqueued, so no
failed-run signal reaches the observer and the stream never terminates —
the loop drains any queued log lines and then polls forever. -/
theorem stream_failure_amended (e : String) (initial : Table)
    (status : String) (es ld : List String) (n : Nat) :
    (worker_run (.error e) []).1 = [] ∧
    (worker_run (.error e) []).2 = false ∧
    (update_output initial status n
      { log_data := ld, logQueue := es, resultQueue := [],
        final_result := none }).2 = false :=
  ⟨rfl, rfl, update_output_starved initial status n es ld⟩

end PriceIsRight
